import Mathlib

/-!
Verification development for the multi-mode type/symbol stringification
subsystem of the Go compiler (`src/cmd/compile/internal/types/fmt.go`).

The embedding is shallow: the compiler's heap of `*Type` nodes becomes an
explicit association list from node ids to `TypeNode` values, pointers become
`Option Nat` references (`none` is Go's `nil`), the shared output buffer
becomes an explicitly threaded `String`, and panics / `base.Fatalf` become
`Except.error`. Recursion over possibly-cyclic type graphs is driven by an
explicit fuel parameter; the `visited` map of `tconv2` is an association list
from node id to the byte offset at which that node's rendering began.
-/

set_option maxRecDepth 10000

namespace GoTypes

/-- Type kinds (`Kind` constants from the compiler's `types` package). -/
inductive Kind where
  | Txxx
  | TINT8 | TUINT8 | TINT16 | TUINT16 | TINT32 | TUINT32 | TINT64 | TUINT64
  | TINT | TUINT | TUINTPTR
  | TCOMPLEX64 | TCOMPLEX128
  | TFLOAT32 | TFLOAT64
  | TBOOL
  | TPTR | TFUNC | TSLICE | TARRAY | TSTRUCT | TCHAN | TMAP | TINTER
  | TFORW | TANY | TSTRING | TUNSAFEPTR | TTYPEPARAM | TUNION
  | TIDEAL | TNIL | TBLANK
  | TFUNCARGS | TCHANARGS
  | TSSA | TTUPLE | TRESULTS
  deriving DecidableEq, Repr

/-- The `fmtMode` enumeration from fmt.go: the kind of printing being done. -/
inductive fmtMode where
  | fmtGo | fmtDebug | fmtTypeID | fmtTypeIDName
  deriving DecidableEq, Repr

/-- Channel directions (`Crecv`, `Csend`, `Cboth`). -/
inductive ChanDir where
  | Crecv | Csend | Cboth
  deriving DecidableEq, Repr

/-- The `Funarg` tagging of struct types used as parameter/result/tparam lists. -/
inductive Funarg where
  | FunargNone | FunargRcvr | FunargParams | FunargResults | FunargTparams
  deriving DecidableEq, Repr

/-- A package: display name, import path, link-symbol prefix
(the Go struct field `Prefix` is rendered here as `prefixStr`). -/
structure Pkg where
  name : String
  path : String
  prefixStr : String
  deriving DecidableEq, Repr

/-- A symbol: owning package reference (`none` = nil) and name.
Symbols are value-like here; fmt.go never compares symbols by pointer. -/
structure Sym where
  pkg : Option Nat
  name : String
  deriving DecidableEq, Repr

/-- A reference to a type node: `none` is Go's nil `*Type`. -/
abbrev TypeRef := Option Nat

/-- A struct field / funarg entry (`types.Field`). `nname` stands for the
text `fmt.Sprint(f.Nname)` would produce for the field's binding node. -/
structure Field where
  sym : Option Sym
  typ : TypeRef
  embedded : Nat
  note : String
  ddd : Bool
  nname : String
  deriving DecidableEq, Repr

/-- The per-kind payload of a type node (the compiler's `extra` field,
one payload shape per kind). `mapT` carries key/elem plus the three
internal implementation structs (`Bucket`, `Hmap`, `Hiter`); `structT`
carries its fields, funarg tag, and (for map-internal structs) the owning
map type (`StructType().Map`). -/
inductive TypeExtra where
  | basic (k : Kind)
  | ptr (elem : TypeRef)
  | arr (numElem : Int) (elem : TypeRef)
  | slice (elem : TypeRef)
  | chan (dir : ChanDir) (elem : TypeRef)
  | mapT (key elem bucket hmap hiter : TypeRef)
  | inter (methods : List Field)
  | func (recvs tparams params results : TypeRef)
  | structT (fields : List Field) (funarg : Funarg) (assocMap : TypeRef)
  | union (terms : List (TypeRef × Bool))
  | ssa (payload : String)
  | tuple (f0 f1 : TypeRef)
  | results (tys : List TypeRef)
  deriving DecidableEq, Repr

/-- A type node: symbol, generation counter (`vargen`), and payload. -/
structure TypeNode where
  sym : Option Sym
  vargen : Nat
  extra : TypeExtra
  deriving DecidableEq, Repr

/-- The kind accessor `t.Kind()`: derived from the payload (`basic` stores its kind directly). -/
def TypeNode.kind (t : TypeNode) : Kind :=
  match t.extra with
  | .basic k => k
  | .ptr _ => .TPTR
  | .arr _ _ => .TARRAY
  | .slice _ => .TSLICE
  | .chan _ _ => .TCHAN
  | .mapT _ _ _ _ _ => .TMAP
  | .inter _ => .TINTER
  | .func _ _ _ _ => .TFUNC
  | .structT _ _ _ => .TSTRUCT
  | .union _ => .TUNION
  | .ssa _ => .TSSA
  | .tuple _ _ => .TTUPLE
  | .results _ => .TRESULTS

/-- Association-list lookup (Go map read that distinguishes presence). -/
def alookup {β : Type} : List (Nat × β) → Nat → Option β
  | [], _ => none
  | (k, v) :: rest, key => if k = key then some v else alookup rest key

/-- String-keyed association-list lookup. -/
def slookup {β : Type} : List (String × β) → String → Option β
  | [], _ => none
  | (k, v) :: rest, key => if k = key then some v else slookup rest key

/-- The global state the renderer reads: the heap of type nodes, the package
table, and the globals of fmt.go (`BuiltinPkg`, `LocalPkg`, `NumImport`,
`ByteType`, `RuneType`, `ErrorType`, the `Types` singleton array, the six
untyped singletons, `BlankSym`). All are immutable during rendering. -/
structure Env where
  types : List (Nat × TypeNode)
  pkgs : List (Nat × Pkg)
  builtinPkg : Option Nat
  localPkg : Option Nat
  numImport : List (String × Nat)
  byteType : TypeRef
  runeType : TypeRef
  errorType : TypeRef
  typesTable : Kind → TypeRef
  untypedBool : TypeRef
  untypedString : TypeRef
  untypedInt : TypeRef
  untypedRune : TypeRef
  untypedFloat : TypeRef
  untypedComplex : TypeRef
  blankSym : Option Sym

/-- Dereference a type reference in the heap. -/
def derefType (env : Env) (t : TypeRef) : Option TypeNode :=
  match t with
  | none => none
  | some id => alookup env.types id

/-- Dereference a package reference. -/
def derefPkg (env : Env) (p : Option Nat) : Option Pkg :=
  match p with
  | none => none
  | some id => alookup env.pkgs id

/-- Lookup of `NumImport[name]` with Go's zero default. -/
def numImportCount (env : Env) (name : String) : Nat :=
  (slookup env.numImport name).getD 0

/-- The `BasicTypeNames` table from fmt.go, as a total function with `""` for kinds
outside the table (mirrors `int(t.Kind()) < len(BasicTypeNames) &&
BasicTypeNames[t.Kind()] != ""`). -/
def basicTypeName : Kind → String
  | .TINT => "int"
  | .TUINT => "uint"
  | .TINT8 => "int8"
  | .TUINT8 => "uint8"
  | .TINT16 => "int16"
  | .TUINT16 => "uint16"
  | .TINT32 => "int32"
  | .TUINT32 => "uint32"
  | .TINT64 => "int64"
  | .TUINT64 => "uint64"
  | .TUINTPTR => "uintptr"
  | .TFLOAT32 => "float32"
  | .TFLOAT64 => "float64"
  | .TCOMPLEX64 => "complex64"
  | .TCOMPLEX128 => "complex128"
  | .TBOOL => "bool"
  | .TANY => "any"
  | .TSTRING => "string"
  | .TNIL => "nil"
  | .TIDEAL => "untyped number"
  | .TBLANK => "blank"
  | _ => ""

/-- Modelled from the spec: `Kind.String()` (the generated stringer for
`types.Kind`, not under src) returns the constant's name; used for the
debug-mode kind prefix and the fallback branch. -/
def kindString : Kind → String
  | .Txxx => "Txxx"
  | .TINT8 => "TINT8"
  | .TUINT8 => "TUINT8"
  | .TINT16 => "TINT16"
  | .TUINT16 => "TUINT16"
  | .TINT32 => "TINT32"
  | .TUINT32 => "TUINT32"
  | .TINT64 => "TINT64"
  | .TUINT64 => "TUINT64"
  | .TINT => "TINT"
  | .TUINT => "TUINT"
  | .TUINTPTR => "TUINTPTR"
  | .TCOMPLEX64 => "TCOMPLEX64"
  | .TCOMPLEX128 => "TCOMPLEX128"
  | .TFLOAT32 => "TFLOAT32"
  | .TFLOAT64 => "TFLOAT64"
  | .TBOOL => "TBOOL"
  | .TPTR => "TPTR"
  | .TFUNC => "TFUNC"
  | .TSLICE => "TSLICE"
  | .TARRAY => "TARRAY"
  | .TSTRUCT => "TSTRUCT"
  | .TCHAN => "TCHAN"
  | .TMAP => "TMAP"
  | .TINTER => "TINTER"
  | .TFORW => "TFORW"
  | .TANY => "TANY"
  | .TSTRING => "TSTRING"
  | .TUNSAFEPTR => "TUNSAFEPTR"
  | .TTYPEPARAM => "TTYPEPARAM"
  | .TUNION => "TUNION"
  | .TIDEAL => "TIDEAL"
  | .TNIL => "TNIL"
  | .TBLANK => "TBLANK"
  | .TFUNCARGS => "TFUNCARGS"
  | .TCHANARGS => "TCHANARGS"
  | .TSSA => "TSSA"
  | .TTUPLE => "TTUPLE"
  | .TRESULTS => "TRESULTS"

/-- Modelled from the spec: `InternString` (types/internstring.go, not under
src) deduplicates storage but returns a string with identical bytes, so as a
value it is the identity. -/
def InternString (s : String) : String := s

/-- Modelled from the spec: `strconv.Quote` from the standard library (not
under src). The spec only requires "the quoted full import path"; paths are
plain ASCII, so quoting wraps the string in double quotes. -/
def strconvQuote (s : String) : String := "\"" ++ s ++ "\""

/-- Modelled from the spec: `IsExported` (types/sym.go, not under src) —
"each method's symbol rendered exported-bare or qualified-unexported
depending on name visibility": a name is exported when its first character
is an upper-case letter. -/
def IsExported (name : String) : Bool :=
  match name.data with
  | c :: _ => c.isUpper
  | [] => false

/-- The `OrigSym` lookup: the original symbol written by the user. -/
def OrigSym (env : Env) (s : Option Sym) : Option Sym :=
  match s with
  | none => none
  | some s =>
    match s.name.data with
    | '~' :: c2 :: _ =>
      match c2 with
      | 'r' => none
      | 'b' => env.blankSym
      | _ => some s
    | _ =>
      if s.name.startsWith ".anon" then none else some s

/-- The `pkgqual` function: the qualifier used for printing symbols from `pkg` in the
given mode. Reading a field of a nil `*Pkg` is a nil-pointer dereference. -/
def pkgqual (env : Env) (pkg : Option Nat) (verb : Char) (mode : fmtMode) :
    Except String String :=
  if verb ≠ 'S' then
    match mode with
    | .fmtGo =>
      if pkg = env.builtinPkg ∨ pkg = env.localPkg then
        Except.ok ""
      else
        match derefPkg env pkg with
        | none => Except.error "nil pointer dereference"
        | some p =>
          if p.name ≠ "" ∧ numImportCount env p.name > 1 then
            Except.ok (strconvQuote p.path)
          else
            Except.ok p.name
    | .fmtDebug =>
      match derefPkg env pkg with
      | none => Except.error "nil pointer dereference"
      | some p => Except.ok p.name
    | .fmtTypeIDName =>
      match derefPkg env pkg with
      | none => Except.error "nil pointer dereference"
      | some p => Except.ok p.name
    | .fmtTypeID =>
      match derefPkg env pkg with
      | none => Except.error "nil pointer dereference"
      | some p => Except.ok p.prefixStr
  else
    Except.ok ""

/-- The `symfmt` writer: writes qualifier + "." + name (or the bare name) after `b`. -/
def symfmt (env : Env) (b : String) (s : Sym) (verb : Char) (mode : fmtMode) :
    Except String String := do
  let q ← pkgqual env s.pkg verb mode
  if q ≠ "" then
    return b ++ q ++ "." ++ s.name
  else
    return b ++ s.name

/-- The `sconv` renderer: standalone symbol rendering. A `'L'` verb panics
("linksymfmt"); a nil symbol is the fixed placeholder. -/
def sconv (env : Env) (s : Option Sym) (verb : Char) (mode : fmtMode) :
    Except String String :=
  if verb = 'L' then
    Except.error "linksymfmt"
  else
    match s with
    | none => Except.ok "<S>"
    | some s => do
      let q ← pkgqual env s.pkg verb mode
      if q = "" then
        return s.name
      else
        return InternString (q ++ "." ++ s.name)

/-- The `sconv2` renderer: buffer-writing symbol rendering. -/
def sconv2 (env : Env) (b : String) (s : Option Sym) (verb : Char)
    (mode : fmtMode) : Except String String :=
  if verb = 'L' then
    Except.error "linksymfmt"
  else
    match s with
    | none => Except.ok (b ++ "<S>")
    | some s => symfmt env b s verb mode

/-- The trailing "·N" trimming applied to locally-scoped type names in the
named-type branch of `tconv2`: strip trailing decimal digits, then a final
middle dot, rebuilding the symbol with the same package. -/
def vargenTrim (s : Sym) : Sym :=
  let kept := (s.name.data.reverse.dropWhile (fun c => '0' ≤ c ∧ c ≤ '9')).reverse
  if kept ≠ [] ∧ kept.getLast? = some '·' then
    { pkg := s.pkg, name := String.mk (kept.dropLast) }
  else
    s

/-- The verb used for a nil format rune (`tconv(t, 0, mode)`). -/
def rZero : Char := Char.ofNat 0

/-- Rendering of `%p` for a type node, rendered from its id (addresses become node ids). -/
def ptrString (id : Nat) : String := "0x" ++ String.mk (Nat.toDigits 16 id)

/-- The `Type.Elem()` accessor: element type of pointer/array/slice/channel; anything
else is a fatal internal error in the compiler. -/
def typeElem (env : Env) (id : Nat) : Except String TypeRef :=
  match alookup env.types id with
  | none => Except.error "invalid type reference"
  | some tn =>
    match tn.extra with
    | .ptr e => Except.ok e
    | .arr _ e => Except.ok e
    | .slice e => Except.ok e
    | .chan _ e => Except.ok e
    | _ => Except.error "Type.Elem"

/-- The parenthesization condition for a bidirectional channel's element:
`t.Elem() != nil && t.Elem().IsChan() && t.Elem().Sym() == nil &&
t.Elem().ChanDir() == Crecv`. -/
def elemParenChan (env : Env) (elem : TypeRef) : Bool :=
  match derefType env elem with
  | some en =>
    match en.extra with
    | .chan .Crecv _ => en.sym.isNone
    | _ => false
  | none => false

/-- Fields of a funarg struct type (empty when the reference is nil). -/
def funargFields (env : Env) (t : TypeRef) : List Field :=
  match derefType env t with
  | some tn =>
    match tn.extra with
    | .structT fields _ _ => fields
    | _ => []
  | none => []

/-- The pending request of the recursive renderer: `tcv` is an entry into
`tconv2`; `trest` is the remainder of `tconv2` after the byte/rune
collapsing may have replaced `t`; `fld` is an entry into `fldconv`. -/
inductive Req where
  | tcv (b : String) (t : TypeRef) (verb : Char) (mode : fmtMode)
      (visited : List (Nat × Nat))
  | trest (b : String) (t : TypeRef) (verb : Char) (mode : fmtMode)
      (visited : List (Nat × Nat))
  | fld (b : String) (f : Option Field) (verb : Char) (mode : fmtMode)
      (visited : List (Nat × Nat)) (funarg : Funarg)

/-- The fuel-indexed renderer implementing `tconv2` and `fldconv`.
Fuel only bounds recursion depth; with enough fuel the result is exactly
what the Go code computes (panics and `base.Fatalf` become `Except.error`). -/
def renderG (env : Env) : Nat → Req → Except String String
  | 0, _ => Except.error "out of fuel"
  | Nat.succ n, req =>
    match req with
    | .tcv b t verb mode visited =>
      -- Any type already in visited prints as @off (its starting byte offset).
      match (match t with | some id => alookup visited id | none => none) with
      | some off => Except.ok (b ++ "@" ++ Nat.repr off)
      | none =>
        match t with
        | none => Except.ok (b ++ "<T>")
        | some id =>
          match alookup env.types id with
          | none => Except.error "invalid type reference"
          | some tn =>
            if tn.kind = Kind.TSSA then
              match tn.extra with
              | .ssa payload => Except.ok (b ++ payload)
              | _ => Except.error "interface conversion"
            else if tn.kind = Kind.TTUPLE then
              match tn.extra with
              | .tuple f0 f1 => do
                let s0 ← Except.map InternString
                  (renderG env n (.tcv "" f0 rZero .fmtGo []))
                let s1 ← Except.map InternString
                  (renderG env n (.tcv "" f1 rZero .fmtGo []))
                Except.ok (b ++ s0 ++ "," ++ s1)
              | _ => Except.error "interface conversion"
            else if tn.kind = Kind.TRESULTS then
              match tn.extra with
              | .results tys => do
                let parts ← tys.mapM (fun et => Except.map InternString
                  (renderG env n (.tcv "" et rZero .fmtGo [])))
                Except.ok (b ++ String.intercalate "," parts)
              | _ => Except.error "interface conversion"
            else if (some id : TypeRef) = env.byteType ∨
                (some id : TypeRef) = env.runeType then
              -- in the ID modes collapse rune and byte with their originals
              match mode with
              | .fmtTypeIDName =>
                renderG env n (.trest b (env.typesTable tn.kind) verb mode visited)
              | .fmtTypeID =>
                renderG env n (.trest b (env.typesTable tn.kind) verb mode visited)
              | _ => sconv2 env b tn.sym 'S' mode
            else
              renderG env n (.trest b (some id) verb mode visited)
    | .trest b t verb mode visited =>
      if t = env.errorType then Except.ok (b ++ "error")
      else
        match t with
        | none => Except.error "nil pointer dereference"
        | some id =>
          match alookup env.types id with
          | none => Except.error "invalid type reference"
          | some tn =>
            let structural : Unit → Except String String := fun _ =>
              if basicTypeName tn.kind ≠ "" then
                let name :=
                  if (some id : TypeRef) = env.untypedBool then "untyped bool"
                  else if (some id : TypeRef) = env.untypedString then "untyped string"
                  else if (some id : TypeRef) = env.untypedInt then "untyped int"
                  else if (some id : TypeRef) = env.untypedRune then "untyped rune"
                  else if (some id : TypeRef) = env.untypedFloat then "untyped float"
                  else if (some id : TypeRef) = env.untypedComplex then "untyped complex"
                  else basicTypeName tn.kind
                Except.ok (b ++ name)
              else if mode = fmtMode.fmtDebug then
                renderG env n
                  (.tcv (b ++ kindString tn.kind ++ "-") (some id) 'v'
                    fmtMode.fmtGo visited)
              else
                -- mark the current type visited at the current byte offset;
                -- the functional visited list realizes the deferred delete
                let visited1 := (id, b.utf8ByteSize) :: visited
                match tn.extra with
                | .ptr elem =>
                  let bb := b ++ "*"
                  (match mode with
                   | .fmtTypeID =>
                     if verb = 'S' then
                       renderG env n (.tcv bb elem 'S' mode visited1)
                     else renderG env n (.tcv bb elem 'v' mode visited1)
                   | .fmtTypeIDName =>
                     if verb = 'S' then
                       renderG env n (.tcv bb elem 'S' mode visited1)
                     else renderG env n (.tcv bb elem 'v' mode visited1)
                   | _ => renderG env n (.tcv bb elem 'v' mode visited1))
                | .arr numElem elem =>
                  renderG env n
                    (.tcv (b ++ "[" ++ Int.repr numElem ++ "]") elem rZero mode
                      visited1)
                | .slice elem =>
                  renderG env n (.tcv (b ++ "[]") elem rZero mode visited1)
                | .chan dir elem =>
                  (match dir with
                   | .Crecv =>
                     renderG env n (.tcv (b ++ "<-chan ") elem rZero mode visited1)
                   | .Csend =>
                     renderG env n (.tcv (b ++ "chan<- ") elem rZero mode visited1)
                   | .Cboth =>
                     if elemParenChan env elem then do
                       let bb ← renderG env n
                         (.tcv (b ++ "chan " ++ "(") elem rZero mode visited1)
                       Except.ok (bb ++ ")")
                     else
                       renderG env n (.tcv (b ++ "chan ") elem rZero mode visited1))
                | .mapT key elem _ _ _ => do
                  let bb ← renderG env n (.tcv (b ++ "map[") key rZero mode visited1)
                  renderG env n (.tcv (bb ++ "]") elem rZero mode visited1)
                | .inter methods =>
                  if methods.isEmpty then Except.ok (b ++ "interface \x7b\x7d")
                  else do
                    let st ← methods.foldlM
                      (fun (acc : String × fmtMode × Bool) f => do
                        let bb := if acc.2.2 then acc.1 else acc.1 ++ ";"
                        let bb := bb ++ " "
                        match f.sym with
                        | none => do
                          let bb2 ← renderG env n (.tcv bb f.typ 'S' acc.2.1 visited1)
                          pure (bb2, acc.2.1, false)
                        | some fs =>
                          if IsExported fs.name then do
                            let bb1 ← sconv2 env bb (some fs) 'S' acc.2.1
                            let bb2 ← renderG env n (.tcv bb1 f.typ 'S' acc.2.1 visited1)
                            pure (bb2, acc.2.1, false)
                          else
                            let m1 := if acc.2.1 ≠ fmtMode.fmtTypeIDName then
                              fmtMode.fmtTypeID else acc.2.1
                            do
                              let bb1 ← sconv2 env bb (some fs) 'v' m1
                              let bb2 ← renderG env n (.tcv bb1 f.typ 'S' m1 visited1)
                              pure (bb2, m1, false))
                      (b ++ "interface \x7b", mode, true)
                    let bb := if methods.length ≠ 0 then st.1 ++ " " else st.1
                    Except.ok (bb ++ "\x7d")
                | .func recvs tparams params results => do
                  let bb ←
                    if verb = 'S' then pure b
                    else do
                      let bb ←
                        if (funargFields env recvs).length ≠ 0 then do
                          let bb1 ← renderG env n
                            (.tcv (b ++ "method") recvs rZero mode visited1)
                          pure (bb1 ++ " ")
                        else pure b
                      pure (bb ++ "func")
                  let bb ←
                    if (funargFields env tparams).length > 0 then
                      renderG env n (.tcv bb tparams rZero mode visited1)
                    else pure bb
                  let bb ← renderG env n (.tcv bb params rZero mode visited1)
                  match funargFields env results with
                  | [] => Except.ok bb
                  | [f] => renderG env n (.tcv (bb ++ " ") f.typ rZero mode visited1)
                  | _ => renderG env n (.tcv (bb ++ " ") results rZero mode visited1)
                | .structT fields funarg assocMap =>
                  (match assocMap with
                   | some mid =>
                     (match alookup env.types mid with
                      | none => Except.error "invalid type reference"
                      | some mnode =>
                        match mnode.extra with
                        | .mapT key elem bucket hmap hiter => do
                          let bb ←
                            if (some id : TypeRef) = bucket then
                              Except.ok (b ++ "map.bucket[")
                            else if (some id : TypeRef) = hmap then
                              Except.ok (b ++ "map.hdr[")
                            else if (some id : TypeRef) = hiter then
                              Except.ok (b ++ "map.iter[")
                            else Except.error "unknown internal map type"
                          let bb1 ← renderG env n (.tcv bb key rZero mode visited1)
                          renderG env n (.tcv (bb1 ++ "]") elem rZero mode visited1)
                        | _ => Except.error "interface conversion")
                   | none =>
                     if funarg ≠ Funarg.FunargNone then
                       let oc : String × String :=
                         if funarg = Funarg.FunargTparams then ("[", "]")
                         else ("(", ")")
                       let fieldVerb := match mode with
                         | .fmtTypeID => 'S'
                         | .fmtTypeIDName => 'S'
                         | .fmtGo => 'S'
                         | _ => 'v'
                       do
                         let st ← fields.foldlM (fun (acc : String × Bool) f => do
                             let bb := if acc.2 then acc.1 else acc.1 ++ ", "
                             let bb2 ← renderG env n
                               (.fld bb (some f) fieldVerb mode visited1 funarg)
                             pure (bb2, false))
                           (b ++ oc.1, true)
                         Except.ok (st.1 ++ oc.2)
                     else do
                       let st ← fields.foldlM (fun (acc : String × Bool) f => do
                           let bb := if acc.2 then acc.1 else acc.1 ++ ";"
                           let bb2 ← renderG env n
                             (.fld (bb ++ " ") (some f) 'L' mode visited1
                               Funarg.FunargNone)
                           pure (bb2, false))
                         (b ++ "struct \x7b", true)
                       let bb := if fields.length ≠ 0 then st.1 ++ " " else st.1
                       Except.ok (bb ++ "\x7d"))
                | .union terms => do
                  let st ← terms.foldlM (fun (acc : String × Bool) term => do
                      let bb := if acc.2 then acc.1 else acc.1 ++ "|"
                      let bb := if term.2 then bb ++ "~" else bb
                      let bb2 ← renderG env n (.tcv bb term.1 rZero mode visited1)
                      pure (bb2, false))
                    (b, true)
                  Except.ok st.1
                | .basic k =>
                  (match k with
                   | .TFORW =>
                     (match tn.sym with
                      | some s1 =>
                        sconv2 env (b ++ "undefined" ++ " ") (some s1) 'v' mode
                      | none => Except.ok (b ++ "undefined"))
                   | .TUNSAFEPTR => Except.ok (b ++ "unsafe.Pointer")
                   | .TTYPEPARAM =>
                     (match tn.sym with
                      | some s1 => sconv2 env b (some s1) 'v' mode
                      | none => Except.ok (b ++ "tp" ++ ptrString id))
                   | .Txxx => Except.ok (b ++ "Txxx")
                   | _ => do
                     let bb ← sconv2 env (b ++ kindString tn.kind ++ " <")
                       tn.sym 'v' mode
                     Except.ok (bb ++ ">"))
                | _ => do
                  -- Go's default branch (unreachable for the synthetic kinds,
                  -- which return before the switch)
                  let bb ← sconv2 env (b ++ kindString tn.kind ++ " <")
                    tn.sym 'v' mode
                  Except.ok (bb ++ ">")
            match tn.sym with
            | some s0 =>
              if verb ≠ 'L' ∧ (some id : TypeRef) ≠ env.typesTable tn.kind then
                -- the named-type short-circuit
                let verb1 := if verb ≠ 'S' then 'v' else verb
                let sym1 := if mode ≠ fmtMode.fmtTypeID then vargenTrim s0 else s0
                do
                  let bb ← sconv2 env b (some sym1) verb1 mode
                  if mode = fmtMode.fmtTypeID ∧ tn.vargen ≠ 0 then
                    Except.ok (bb ++ "·" ++ Nat.repr tn.vargen)
                  else
                    Except.ok bb
              else structural ()
            | none => structural ()
    | .fld b f verb mode visited funarg =>
      match f with
      | none => Except.ok (b ++ "<T>")
      | some f => do
        let name ←
          if verb ≠ 'S' then
            let s := f.sym
            let s := if mode = fmtMode.fmtGo then OrigSym env s else s
            match s with
            | some s1 =>
              if f.embedded = 0 then
                if funarg ≠ Funarg.FunargNone then
                  pure f.nname
                else if verb = 'L' then do
                  let nm := s1.name
                  let nm := if nm = ".F" then "F" else nm
                  if ¬ IsExported nm ∧ mode ≠ fmtMode.fmtTypeIDName then
                    sconv env (some s1) rZero mode
                  else
                    pure nm
                else
                  sconv env (some s1) rZero mode
              else pure ""
            | none => pure ""
          else pure ""
        let bb := if name ≠ "" then b ++ name ++ " " else b
        let bb ←
          if f.ddd then do
            let et ← (match f.typ with
                      | none => Except.ok (none : TypeRef)
                      | some tid => typeElem env tid)
            renderG env n (.tcv (bb ++ "...") et rZero mode visited)
          else
            renderG env n (.tcv bb f.typ rZero mode visited)
        if verb ≠ 'S' ∧ funarg = Funarg.FunargNone ∧ f.note ≠ "" then
          Except.ok (bb ++ " " ++ strconvQuote f.note)
        else
          Except.ok bb

/-- The `tconv2` entry point: writes a string representation of `t` after `b`. -/
def tconv2 (env : Env) (fuel : Nat) (b : String) (t : TypeRef) (verb : Char)
    (mode : fmtMode) (visited : List (Nat × Nat)) : Except String String :=
  renderG env fuel (.tcv b t verb mode visited)

/-- The `fldconv` entry point: writes a field's representation after `b`. -/
def fldconv (env : Env) (fuel : Nat) (b : String) (f : Option Field)
    (verb : Char) (mode : fmtMode) (visited : List (Nat × Nat))
    (funarg : Funarg) : Except String String :=
  renderG env fuel (.fld b f verb mode visited funarg)

/-- The `tconv` entry point: renders into a fresh buffer and interns the result. -/
def tconv (env : Env) (fuel : Nat) (t : TypeRef) (verb : Char)
    (mode : fmtMode) : Except String String :=
  Except.map InternString (renderG env fuel (.tcv "" t verb mode []))

/-- The `Type.String()` method: Go syntax, `tconv(t, 0, fmtGo)`. -/
def typeString (env : Env) (fuel : Nat) (t : TypeRef) : Except String String :=
  tconv env fuel t rZero fmtMode.fmtGo

/-- The `Type.LinkString()` method: `tconv(t, 0, fmtTypeID)`. -/
def LinkString (env : Env) (fuel : Nat) (t : TypeRef) : Except String String :=
  tconv env fuel t rZero fmtMode.fmtTypeID

/-- The `Type.NameString()` method: `tconv(t, 0, fmtTypeIDName)`. -/
def NameString (env : Env) (fuel : Nat) (t : TypeRef) : Except String String :=
  tconv env fuel t rZero fmtMode.fmtTypeIDName

/-- Modelled from the spec: a `go/constant` value (the package is not under
src). The claims concern the sign-aware complex formatting, so a complex
value is carried as its real/imaginary decomposition (integer constants;
`constant.Sign` and the default rendering of the parts are `Int.sign` and
`Int.repr`), and every other value kind is carried as its default textual
form. -/
inductive ConstValue where
  | complexVal (re im : Int)
  | other (defaultStr : String)
  deriving DecidableEq, Repr

/-- Whether `v.Kind() == constant.Complex`. -/
def ConstValue.isComplex : ConstValue → Bool
  | .complexVal _ _ => true
  | .other _ => false

/-- Modelled from the spec: `v.String()`, the value's default textual form
(`go/constant` prints a complex value as `(re + imi)`). -/
def ConstValue.str : ConstValue → String
  | .complexVal re im => "(" ++ Int.repr re ++ " + " ++ Int.repr im ++ "i)"
  | .other s => s

/-- The `FmtConst` function from fmt.go: sign-aware formatting of non-sharp complex
values; everything else uses the default form. -/
def FmtConst (v : ConstValue) (sharp : Bool) : String :=
  if !sharp && v.isComplex then
    match v with
    | .complexVal real imag =>
      let sre := Int.sign real
      let sim := Int.sign imag
      let re := if sre ≠ 0 then Int.repr real else ""
      let im := if sim ≠ 0 then Int.repr imag else ""
      if sre = 0 ∧ sim = 0 then "0"
      else if sre = 0 then im ++ "i"
      else if sim = 0 then re
      else if sim < 0 then "(" ++ re ++ im ++ "i)"
      else "(" ++ re ++ "+" ++ im ++ "i)"
    | .other s => s
  else
    v.str

/-- The complex-formatting rule exactly as claim C6 words it, for
comparison with `FmtConst`. -/
def fmtConstClaim (v : ConstValue) (sharp : Bool) : String :=
  if !sharp && v.isComplex then
    match v with
    | .complexVal re im =>
      if re = 0 ∧ im = 0 then "0"
      else if re = 0 then Int.repr im ++ "i"
      else if im = 0 then Int.repr re
      else if im < 0 then "(" ++ Int.repr re ++ Int.repr im ++ "i)"
      else "(" ++ Int.repr re ++ "+" ++ Int.repr im ++ "i)"
    | .other s => s
  else
    v.str

/-- UTF-8 encoding of one character, as byte values. -/
def utf8Bytes (c : Char) : List Nat :=
  let n := c.toNat
  if n < 128 then [n]
  else if n < 2048 then [192 + n / 64, 128 + n % 64]
  else if n < 65536 then
    [224 + n / 4096, 128 + (n / 64) % 64, 128 + n % 64]
  else
    [240 + n / 262144, 128 + (n / 4096) % 64, 128 + (n / 64) % 64, 128 + n % 64]

/-- The bytes of a string (`[]byte(p)` in Go). -/
def strBytes (s : String) : List Nat :=
  (s.data.map utf8Bytes).flatten

/-- Left rotation within 32 bits on `Nat` values below 2^32. -/
def rotl32 (x c : Nat) : Nat :=
  ((x <<< c) ||| (x >>> (32 - c))) % 4294967296

/-- Modelled from the spec: the MD5 sine-constant table (RFC 1321);
`crypto/md5` is not under src. -/
def md5K : List Nat :=
  [0xd76aa478, 0xe8c7b756, 0x242070db, 0xc1bdceee,
   0xf57c0faf, 0x4787c62a, 0xa8304613, 0xfd469501,
   0x698098d8, 0x8b44f7af, 0xffff5bb1, 0x895cd7be,
   0x6b901122, 0xfd987193, 0xa679438e, 0x49b40821,
   0xf61e2562, 0xc040b340, 0x265e5a51, 0xe9b6c7aa,
   0xd62f105d, 0x02441453, 0xd8a1e681, 0xe7d3fbc8,
   0x21e1cde6, 0xc33707d6, 0xf4d50d87, 0x455a14ed,
   0xa9e3e905, 0xfcefa3f8, 0x676f02d9, 0x8d2a4c8a,
   0xfffa3942, 0x8771f681, 0x6d9d6122, 0xfde5380c,
   0xa4beea44, 0x4bdecfa9, 0xf6bb4b60, 0xbebfbc70,
   0x289b7ec6, 0xeaa127fa, 0xd4ef3085, 0x04881d05,
   0xd9d4d039, 0xe6db99e5, 0x1fa27cf8, 0xc4ac5665,
   0xf4292244, 0x432aff97, 0xab9423a7, 0xfc93a039,
   0x655b59c3, 0x8f0ccc92, 0xffeff47d, 0x85845dd1,
   0x6fa87e4f, 0xfe2ce6e0, 0xa3014314, 0x4e0811a1,
   0xf7537e82, 0xbd3af235, 0x2ad7d2bb, 0xeb86d391]

/-- The MD5 per-round shift amounts. -/
def md5S : List Nat :=
  [7, 12, 17, 22, 7, 12, 17, 22, 7, 12, 17, 22, 7, 12, 17, 22,
   5, 9, 14, 20, 5, 9, 14, 20, 5, 9, 14, 20, 5, 9, 14, 20,
   4, 11, 16, 23, 4, 11, 16, 23, 4, 11, 16, 23, 4, 11, 16, 23,
   6, 10, 15, 21, 6, 10, 15, 21, 6, 10, 15, 21, 6, 10, 15, 21]

/-- One MD5 round on the (a, b, c, d) state. -/
def md5Round (M : List Nat) (st : Nat × Nat × Nat × Nat) (i : Nat) :
    Nat × Nat × Nat × Nat :=
  let a := st.1
  let b := st.2.1
  let c := st.2.2.1
  let d := st.2.2.2
  let f :=
    if i < 16 then (b &&& c) ||| ((b ^^^ 0xffffffff) &&& d)
    else if i < 32 then (d &&& b) ||| ((d ^^^ 0xffffffff) &&& c)
    else if i < 48 then b ^^^ c ^^^ d
    else c ^^^ (b ||| (d ^^^ 0xffffffff))
  let g :=
    if i < 16 then i
    else if i < 32 then (5 * i + 1) % 16
    else if i < 48 then (3 * i + 5) % 16
    else (7 * i) % 16
  let f1 := (f + a + md5K.getD i 0 + M.getD g 0) % 4294967296
  (d, (b + rotl32 f1 (md5S.getD i 0)) % 4294967296, b, c)

/-- Group little-endian byte quadruples into 32-bit words. -/
def toLEWords : List Nat → List Nat
  | b0 :: b1 :: b2 :: b3 :: rest =>
    (b0 + 256 * b1 + 65536 * b2 + 16777216 * b3) :: toLEWords rest
  | _ => []

/-- Process one 64-byte block. -/
def md5Block (st : Nat × Nat × Nat × Nat) (block : List Nat) :
    Nat × Nat × Nat × Nat :=
  let M := toLEWords block
  let r := (List.range 64).foldl (md5Round M) st
  ((st.1 + r.1) % 4294967296, (st.2.1 + r.2.1) % 4294967296,
   (st.2.2.1 + r.2.2.1) % 4294967296, (st.2.2.2 + r.2.2.2) % 4294967296)

/-- Process all 64-byte blocks. -/
def md5Blocks (st : Nat × Nat × Nat × Nat) (l : List Nat) :
    Nat × Nat × Nat × Nat :=
  if h : l = [] then st
  else md5Blocks (md5Block st (l.take 64)) (l.drop 64)
termination_by l.length
decreasing_by
  have hl : 0 < l.length := List.length_pos.mpr h
  simp only [List.length_drop]
  omega

/-- MD5 padding: 0x80, zeros to 56 mod 64, then the 64-bit bit length LE. -/
def md5pad (msg : List Nat) : List Nat :=
  let z := (120 - ((msg.length + 1) % 64)) % 64
  let bits := msg.length * 8
  msg ++ [0x80] ++ List.replicate z 0 ++
    (List.range 8).map (fun i => (bits >>> (8 * i)) % 256)

/-- Little-endian bytes of a 32-bit word. -/
def leBytes4 (x : Nat) : List Nat :=
  [x % 256, (x / 256) % 256, (x / 65536) % 256, (x / 16777216) % 256]

/-- The digest `md5.Sum`: the 16-byte MD5 digest of a byte sequence. -/
def md5 (msg : List Nat) : List Nat :=
  let st := md5Blocks (0x67452301, 0xefcdab89, 0x98badcfe, 0x10325476)
    (md5pad msg)
  leBytes4 st.1 ++ leBytes4 st.2.1 ++ leBytes4 st.2.2.1 ++ leBytes4 st.2.2.2

/-- Reading `binary.LittleEndian.Uint32` of the first four bytes. -/
def leUint32 (l : List Nat) : Nat :=
  l.getD 0 0 + 256 * (l.getD 1 0 + 256 * (l.getD 2 0 + 256 * l.getD 3 0))

/-- The `TypeHash` function: hash of the name-string rendering, for type switches. -/
def TypeHash (env : Env) (fuel : Nat) (t : TypeRef) : Except String Nat := do
  let p ← NameString env fuel t
  Except.ok (leUint32 ((md5 (strBytes p)).take 4))

/-- Decidable equality of `Except` results, for concrete evaluation. -/
instance {ε α : Type} [DecidableEq ε] [DecidableEq α] :
    DecidableEq (Except ε α) := fun a b =>
  match a, b with
  | .ok x, .ok y =>
    if h : x = y then isTrue (by rw [h])
    else isFalse (fun hh => h (Except.ok.inj hh))
  | .error x, .error y =>
    if h : x = y then isTrue (by rw [h])
    else isFalse (fun hh => h (Except.error.inj hh))
  | .ok _, .error _ => isFalse (fun hh => Except.noConfusion hh)
  | .error _, .ok _ => isFalse (fun hh => Except.noConfusion hh)

/-- Number of occurrences of a character in a string. -/
def countChar (c : Char) (s : String) : Nat := s.data.count c

/-- A fully absent global state, the base for the concrete test graphs. -/
def emptyEnv : Env :=
  { types := [], pkgs := [], builtinPkg := none, localPkg := none,
    numImport := [], byteType := none, runeType := none, errorType := none,
    typesTable := fun _ => none, untypedBool := none, untypedString := none,
    untypedInt := none, untypedRune := none, untypedFloat := none,
    untypedComplex := none, blankSym := none }

/-- A cyclic graph: node 0 is a struct whose sole field `f` has type
node 1, a pointer back to node 0. -/
def c2env : Env :=
  { emptyEnv with
    types := [(0, { sym := none, vargen := 0,
                    extra := .structT [{ sym := some { pkg := some 0, name := "f" },
                                         typ := some 1, embedded := 0, note := "",
                                         ddd := false, nname := "" }]
                      Funarg.FunargNone none }),
              (1, { sym := none, vargen := 0, extra := .ptr (some 0) })],
    pkgs := [(0, { name := "main", path := "main", prefixStr := "" })],
    localPkg := some 0 }

/-- The symbol of the distinguished `byte` alias type. -/
def byteSym : Sym := { pkg := some 0, name := "byte" }

/-- A graph with the `uint8` basic singleton (node 0, the `Types` table
entry) and the `byte` alias (node 1, the `ByteType` global). -/
def c3env : Env :=
  { emptyEnv with
    types := [(0, { sym := some { pkg := some 0, name := "uint8" }, vargen := 0,
                    extra := .basic Kind.TUINT8 }),
              (1, { sym := some byteSym, vargen := 0,
                    extra := .basic Kind.TUINT8 })],
    pkgs := [(0, { name := "go.builtin", path := "go.builtin", prefixStr := "" })],
    builtinPkg := some 0,
    byteType := some 1,
    typesTable := fun k => if k = Kind.TUINT8 then some 0 else none }

/-- A function-scope defined type's symbol carrying a `·N` suffix. -/
def fooSym : Sym := { pkg := some 0, name := "Foo·3" }

/-- A graph with one named struct type whose symbol is `fooSym`. -/
def c3wEnv : Env :=
  { emptyEnv with
    types := [(0, { sym := some fooSym, vargen := 0,
                    extra := .structT [] Funarg.FunargNone none })],
    pkgs := [(0, { name := "main", path := "main", prefixStr := "" })],
    localPkg := some 0 }

/-- A package table in which the package at id 0 has an empty display name
that is nevertheless recorded twice in the import-count table. -/
def c4env : Env :=
  { emptyEnv with
    pkgs := [(0, { name := "", path := "a", prefixStr := "" }),
             (1, { name := "b", path := "pb", prefixStr := "b" }),
             (2, { name := "l", path := "pl", prefixStr := "l" })],
    builtinPkg := some 1,
    localPkg := some 2,
    numImport := [("", 2)] }

/-- A package table with an imported package `fmt` whose display name is
recorded for two distinct import paths. -/
def c4wEnv : Env :=
  { emptyEnv with
    pkgs := [(0, { name := "fmt", path := "fmt", prefixStr := "fmt" }),
             (1, { name := "b", path := "pb", prefixStr := "b" }),
             (2, { name := "l", path := "pl", prefixStr := "l" })],
    builtinPkg := some 1,
    localPkg := some 2,
    numImport := [("fmt", 2)] }

/-- A state whose builtin and local package globals are both set. -/
def c9env : Env :=
  { emptyEnv with
    pkgs := [(0, { name := "b", path := "pb", prefixStr := "b" }),
             (1, { name := "l", path := "pl", prefixStr := "l" })],
    builtinPkg := some 0,
    localPkg := some 1 }

/-- A graph with a `map[string]int` type (node 2) whose bucket struct is
node 3; node 4 is tagged with the same map but matches no role. -/
def c5env : Env :=
  { emptyEnv with
    types := [(0, { sym := some { pkg := some 9, name := "int" }, vargen := 0,
                    extra := .basic Kind.TINT }),
              (1, { sym := some { pkg := some 9, name := "string" }, vargen := 0,
                    extra := .basic Kind.TSTRING }),
              (2, { sym := none, vargen := 0,
                    extra := .mapT (some 1) (some 0) (some 3) none none }),
              (3, { sym := none, vargen := 0,
                    extra := .structT [] Funarg.FunargNone (some 2) }),
              (4, { sym := none, vargen := 0,
                    extra := .structT [] Funarg.FunargNone (some 2) })],
    pkgs := [(9, { name := "go.builtin", path := "go.builtin", prefixStr := "" })],
    builtinPkg := some 9,
    typesTable := fun k =>
      if k = Kind.TINT then some 0
      else if k = Kind.TSTRING then some 1 else none }

/-- The graph of `c5env` extended with the three synthetic kinds: a
two-type tuple (node 5), a raw-text placeholder (node 6), and a
multi-type result list (node 7). -/
def c10env : Env :=
  { c5env with
    types := c5env.types ++
      [(5, { sym := none, vargen := 0, extra := .tuple (some 0) (some 1) }),
       (6, { sym := none, vargen := 0, extra := .ssa "flags" }),
       (7, { sym := none, vargen := 0,
             extra := .results [some 0, some 1, some 0] })] }

theorem vargenTrim_example :
    vargenTrim { pkg := none, name := "Foo·23" } =
      { pkg := none, name := "Foo" } := by decide

theorem vargenTrim_noop :
    vargenTrim { pkg := none, name := "Foo" } =
      { pkg := none, name := "Foo" } := by decide

/-- Sign of an integer is negative exactly when the integer is. -/
theorem intSignLt (a : Int) : Int.sign a < 0 ↔ a < 0 := by
  rcases a with (_ | n) | n
  · simp [Int.sign]
  · simp [Int.sign]
    omega
  · simp [Int.sign, Int.negSucc_lt_zero]

/-- Claim C1: for every type, rendering mode, and verb, rendering twice via
`tconv` yields byte-identical strings; `tconv` is a pure function of the
global state, the type, the verb, and the mode, so any two renders of the
same type under the same mode agree regardless of call order or calling
thread. -/
theorem tconv_deterministic (env : Env) (fuel : Nat) (t : TypeRef)
    (verb : Char) (mode : fmtMode) (r1 r2 : Except String String)
    (h1 : tconv env fuel t verb mode = r1)
    (h2 : tconv env fuel t verb mode = r2) : r1 = r2 :=
  h1.symm.trans h2

/-- Witness for C1: two renders of the self-referential struct of `c2env`
produce the same string. -/
theorem tconv_deterministic_witness :
    (Except.ok "struct \x7b f *@0 \x7d" : Except String String) =
      Except.ok "struct \x7b f *@0 \x7d" :=
  tconv_deterministic c2env 20 (some 0) rZero fmtMode.fmtGo _ _ rfl rfl

/-- Claim C2: if a type is already a key in the visited map, `tconv2`
emits the back-reference token `@N` with N the recorded byte offset and
returns without recursing; and the struct whose sole field is a pointer to
itself renders to the bounded string "struct \x7b f *@0 \x7d" containing
exactly one back-reference token. -/
theorem tconv2_cycle_backref :
    (∀ (env : Env) (n : Nat) (b : String) (id : Nat) (verb : Char)
       (mode : fmtMode) (visited : List (Nat × Nat)) (off : Nat),
       alookup visited id = some off →
       tconv2 env (n + 1) b (some id) verb mode visited =
         Except.ok (b ++ "@" ++ Nat.repr off)) ∧
    (tconv c2env 20 (some 0) rZero fmtMode.fmtGo =
       Except.ok "struct \x7b f *@0 \x7d" ∧
     countChar '@' "struct \x7b f *@0 \x7d" = 1) := by
  refine ⟨?_, ?_, ?_⟩
  · intro env n b id verb mode visited off h
    simp [tconv2, renderG, h]
  · rfl
  · decide

/-- Witness for C2: a type marked at offset 3 prints as `@3`. -/
theorem tconv2_cycle_backref_witness :
    tconv2 c2env 5 "" (some 0) 'v' fmtMode.fmtGo [(0, 3)] = Except.ok "@3" :=
  tconv2_cycle_backref.1 c2env 4 "" 0 'v' fmtMode.fmtGo [(0, 3)] 3 rfl

/-- Counterexample to C3 as stated: the `byte` alias type carries a symbol
and is not a basic-kind singleton, yet in link-identity mode `tconv2` does
not render it via the symbol renderer — it collapses it to the `uint8`
singleton first and prints "uint8", not "byte". -/
theorem tconv2_byte_alias_counterexample :
    (some 1 : TypeRef) ≠ c3env.typesTable Kind.TUINT8 ∧
    (alookup c3env.types 1).map TypeNode.sym = some (some byteSym) ∧
    tconv2 c3env 5 "" (some 1) 'v' fmtMode.fmtTypeID [] = Except.ok "uint8" ∧
    sconv2 c3env "" (some byteSym) 'v' fmtMode.fmtTypeID = Except.ok "byte" ∧
    ("uint8" : String) ≠ "byte" := by
  refine ⟨by decide, by decide, rfl, rfl, by decide⟩

/-- Claim C3 (amended): for every type that carries a symbol, is not a
basic-kind singleton, is not the byte/rune alias or the builtin error type,
is not one of the synthetic kinds, and is not already being rendered by an
ancestor call, when the verb is not 'L' `tconv2` renders via the symbol
renderer and returns without structural rendering; in all modes except
link-identity it first strips a trailing middle-dot-plus-decimal-number
suffix from the symbol name, while link-identity preserves that suffix and
appends the middle dot plus the generation counter whenever nonzero. -/
theorem tconv2_named_type_shortcircuit (env : Env) (n : Nat) (b : String)
    (id : Nat) (verb : Char) (mode : fmtMode) (visited : List (Nat × Nat))
    (tn : TypeNode) (s0 : Sym)
    (hvis : alookup visited id = none)
    (hlk : alookup env.types id = some tn)
    (hk1 : tn.kind ≠ Kind.TSSA) (hk2 : tn.kind ≠ Kind.TTUPLE)
    (hk3 : tn.kind ≠ Kind.TRESULTS)
    (hb : (some id : TypeRef) ≠ env.byteType)
    (hr : (some id : TypeRef) ≠ env.runeType)
    (he : (some id : TypeRef) ≠ env.errorType)
    (hs : tn.sym = some s0)
    (hsing : (some id : TypeRef) ≠ env.typesTable tn.kind)
    (hv : verb ≠ 'L') :
    (mode ≠ fmtMode.fmtTypeID →
      tconv2 env (n + 2) b (some id) verb mode visited =
        sconv2 env b (some (vargenTrim s0))
          (if verb = 'S' then verb else 'v') mode) ∧
    (mode = fmtMode.fmtTypeID →
      tconv2 env (n + 2) b (some id) verb mode visited =
        Except.map
          (fun bb =>
            if tn.vargen ≠ 0 then bb ++ "·" ++ Nat.repr tn.vargen else bb)
          (sconv2 env b (some s0) (if verb = 'S' then verb else 'v') mode)) := by
  constructor
  · intro hm
    cases hsc : sconv2 env b (some (vargenTrim s0))
        (if verb = 'S' then verb else 'v') mode with
    | ok v =>
      simp [tconv2, renderG, hvis, hlk, hk1, hk2, hk3, hb, hr, he, hs, hv,
        hsing, hm, hsc, Except.bind, Except.instMonad]
    | error e =>
      simp [tconv2, renderG, hvis, hlk, hk1, hk2, hk3, hb, hr, he, hs, hv,
        hsing, hm, hsc, Except.bind, Except.instMonad]
  · intro hm
    subst hm
    cases hsc : sconv2 env b (some s0) (if verb = 'S' then verb else 'v')
        fmtMode.fmtTypeID with
    | ok v =>
      by_cases hvg : tn.vargen = 0 <;>
        simp [tconv2, renderG, hvis, hlk, hk1, hk2, hk3, hb, hr, he, hs, hv,
          hsing, hsc, hvg, Except.bind, Except.map, Except.instMonad]
    | error e =>
      simp [tconv2, renderG, hvis, hlk, hk1, hk2, hk3, hb, hr, he, hs, hv,
        hsing, hsc, Except.bind, Except.map, Except.instMonad]

/-- Witness for C3 (amended): the local type `Foo·3` renders in display
mode through the symbol renderer with its suffix stripped. -/
theorem tconv2_named_type_shortcircuit_witness :
    tconv2 c3wEnv 5 "" (some 0) 'v' fmtMode.fmtGo [] =
      sconv2 c3wEnv "" (some (vargenTrim fooSym))
        (if ('v' : Char) = 'S' then 'v' else 'v') fmtMode.fmtGo :=
  (tconv2_named_type_shortcircuit c3wEnv 3 "" 0 'v' fmtMode.fmtGo [] _ fooSym
    rfl rfl (by decide) (by decide) (by decide) (by decide) (by decide)
    (by decide) rfl (by decide) (by decide)).1 (by decide)

/-- Counterexample to C4 as stated: a package whose display name is empty
but is recorded as imported twice yields the empty string in display mode,
not the quoted import path the claim requires. -/
theorem pkgqual_empty_name_counterexample :
    numImportCount c4env "" = 2 ∧
    pkgqual c4env (some 0) 'v' fmtMode.fmtGo = Except.ok "" ∧
    pkgqual c4env (some 0) 'v' fmtMode.fmtGo ≠
      Except.ok (strconvQuote "a") := by
  exact ⟨rfl, rfl, by decide⟩

/-- Claim C4 (amended): with the short form requested the qualifier is
empty in every mode; otherwise in display mode it is empty for the builtin
and the current package, the quoted import path when the display name is
nonempty and recorded as imported more than once, and the display name
otherwise; debug and name-string modes always yield the display name, and
link-identity mode always yields the link prefix. -/
theorem pkgqual_rules (env : Env) (pid : Nat) (pk : Pkg) (verb : Char)
    (mode : fmtMode) (hlk : alookup env.pkgs pid = some pk) :
    (verb = 'S' → pkgqual env (some pid) verb mode = Except.ok "") ∧
    (verb ≠ 'S' → mode = fmtMode.fmtGo →
      ((some pid = env.builtinPkg ∨ some pid = env.localPkg) →
        pkgqual env (some pid) verb mode = Except.ok "") ∧
      (¬(some pid = env.builtinPkg ∨ some pid = env.localPkg) →
        pk.name ≠ "" → numImportCount env pk.name > 1 →
        pkgqual env (some pid) verb mode = Except.ok (strconvQuote pk.path)) ∧
      (¬(some pid = env.builtinPkg ∨ some pid = env.localPkg) →
        ¬(pk.name ≠ "" ∧ numImportCount env pk.name > 1) →
        pkgqual env (some pid) verb mode = Except.ok pk.name)) ∧
    (verb ≠ 'S' → (mode = fmtMode.fmtDebug ∨ mode = fmtMode.fmtTypeIDName) →
      pkgqual env (some pid) verb mode = Except.ok pk.name) ∧
    (verb ≠ 'S' → mode = fmtMode.fmtTypeID →
      pkgqual env (some pid) verb mode = Except.ok pk.prefixStr) := by
  refine ⟨?_, ?_, ?_, ?_⟩
  · intro hS
    simp [pkgqual, hS]
  · intro hS hm
    subst hm
    refine ⟨?_, ?_, ?_⟩
    · intro hbl
      simp [pkgqual, hS, hbl]
    · intro hbl hname hcnt
      simp [pkgqual, hS, hbl, derefPkg, hlk, hname, hcnt]
    · intro hbl hno
      simp [pkgqual, hS, hbl, derefPkg, hlk, hno]
  · intro hS hm
    cases hm with
    | inl h => subst h; simp [pkgqual, hS, derefPkg, hlk]
    | inr h => subst h; simp [pkgqual, hS, derefPkg, hlk]
  · intro hS hm
    subst hm
    simp [pkgqual, hS, derefPkg, hlk]

/-- Witness for C4 (amended): every branch of the qualifier rules at a
concrete package table, including the collision case for `fmt`. -/
theorem pkgqual_rules_witness :
    pkgqual c4wEnv (some 0) 'S' fmtMode.fmtGo = Except.ok "" ∧
    pkgqual c4wEnv (some 0) 'v' fmtMode.fmtGo =
      Except.ok (strconvQuote "fmt") ∧
    pkgqual c4wEnv (some 1) 'v' fmtMode.fmtGo = Except.ok "" ∧
    pkgqual c4wEnv (some 0) 'v' fmtMode.fmtDebug = Except.ok "fmt" ∧
    pkgqual c4wEnv (some 0) 'v' fmtMode.fmtTypeIDName = Except.ok "fmt" ∧
    pkgqual c4wEnv (some 0) 'v' fmtMode.fmtTypeID = Except.ok "fmt" :=
  ⟨(pkgqual_rules c4wEnv 0 _ 'S' fmtMode.fmtGo rfl).1 rfl,
   ((pkgqual_rules c4wEnv 0 _ 'v' fmtMode.fmtGo rfl).2.1 (by decide) rfl).2.1
     (by decide) (by decide) (by decide),
   ((pkgqual_rules c4wEnv 1 _ 'v' fmtMode.fmtGo rfl).2.1 (by decide) rfl).1
     (by decide),
   (pkgqual_rules c4wEnv 0 _ 'v' fmtMode.fmtDebug rfl).2.2.1 (by decide)
     (Or.inl rfl),
   (pkgqual_rules c4wEnv 0 _ 'v' fmtMode.fmtTypeIDName rfl).2.2.1 (by decide)
     (Or.inr rfl),
   (pkgqual_rules c4wEnv 0 _ 'v' fmtMode.fmtTypeID rfl).2.2.2 (by decide) rfl⟩

/-- Claim C5: a struct tagged as a map-internal type renders as
`map.bucket[K]V`, `map.hdr[K]V`, or `map.iter[K]V` from the associated
map's key and element types — never from the struct's own fields — when it
is the map's bucket, header, or iterator struct respectively, and aborts
with the internal error "unknown internal map type" when it matches none
of the three roles. -/
theorem tconv2_map_internal_struct (env : Env) (n : Nat) (b : String)
    (id mid : Nat) (verb : Char) (mode : fmtMode)
    (visited : List (Nat × Nat)) (tn mnode : TypeNode)
    (fields : List Field) (funarg : Funarg)
    (key elem bucket hmap hiter : TypeRef)
    (hvis : alookup visited id = none)
    (hlk : alookup env.types id = some tn)
    (hx : tn.extra = TypeExtra.structT fields funarg (some mid))
    (hb : (some id : TypeRef) ≠ env.byteType)
    (hr : (some id : TypeRef) ≠ env.runeType)
    (he : (some id : TypeRef) ≠ env.errorType)
    (hs : tn.sym = none)
    (hmd : mode ≠ fmtMode.fmtDebug)
    (hmlk : alookup env.types mid = some mnode)
    (hmx : mnode.extra = TypeExtra.mapT key elem bucket hmap hiter) :
    ((some id : TypeRef) = bucket →
      tconv2 env (n + 2) b (some id) verb mode visited = (do
        let bb ← tconv2 env n (b ++ "map.bucket[") key rZero mode
          ((id, b.utf8ByteSize) :: visited)
        tconv2 env n (bb ++ "]") elem rZero mode
          ((id, b.utf8ByteSize) :: visited))) ∧
    ((some id : TypeRef) ≠ bucket → (some id : TypeRef) = hmap →
      tconv2 env (n + 2) b (some id) verb mode visited = (do
        let bb ← tconv2 env n (b ++ "map.hdr[") key rZero mode
          ((id, b.utf8ByteSize) :: visited)
        tconv2 env n (bb ++ "]") elem rZero mode
          ((id, b.utf8ByteSize) :: visited))) ∧
    ((some id : TypeRef) ≠ bucket → (some id : TypeRef) ≠ hmap →
      (some id : TypeRef) = hiter →
      tconv2 env (n + 2) b (some id) verb mode visited = (do
        let bb ← tconv2 env n (b ++ "map.iter[") key rZero mode
          ((id, b.utf8ByteSize) :: visited)
        tconv2 env n (bb ++ "]") elem rZero mode
          ((id, b.utf8ByteSize) :: visited))) ∧
    ((some id : TypeRef) ≠ bucket → (some id : TypeRef) ≠ hmap →
      (some id : TypeRef) ≠ hiter →
      tconv2 env (n + 2) b (some id) verb mode visited =
        Except.error "unknown internal map type") := by
  have hk : tn.kind = Kind.TSTRUCT := by simp [TypeNode.kind, hx]
  refine ⟨?_, ?_, ?_, ?_⟩
  · intro h1
    simp [tconv2, renderG, hvis, hlk, hx, hk, hb, hr, he, hs, hmd, hmlk, hmx,
      ← h1, basicTypeName, Except.bind, Except.instMonad]
  · intro h1 h2
    simp [tconv2, renderG, hvis, hlk, hx, hk, hb, hr, he, hs, hmd, hmlk, hmx,
      h1, ← h2, basicTypeName, Except.bind, Except.instMonad]
  · intro h1 h2 h3
    simp [tconv2, renderG, hvis, hlk, hx, hk, hb, hr, he, hs, hmd, hmlk, hmx,
      h1, h2, ← h3, basicTypeName, Except.bind, Except.instMonad]
  · intro h1 h2 h3
    simp [tconv2, renderG, hvis, hlk, hx, hk, hb, hr, he, hs, hmd, hmlk, hmx,
      h1, h2, h3, basicTypeName, Except.bind, Except.instMonad]

/-- Witness for C5: the bucket struct of `map[string]int` renders as
`map.bucket[string]int`, and the role-less tagged struct is fatal. -/
theorem tconv2_map_internal_struct_witness :
    tconv2 c5env 12 "" (some 3) 'v' fmtMode.fmtGo [] =
      Except.ok "map.bucket[string]int" ∧
    tconv2 c5env 12 "" (some 4) 'v' fmtMode.fmtGo [] =
      Except.error "unknown internal map type" :=
  ⟨((tconv2_map_internal_struct c5env 10 "" 3 2 'v' fmtMode.fmtGo [] _ _ []
      Funarg.FunargNone (some 1) (some 0) (some 3) none none rfl rfl rfl
      (by decide) (by decide) (by decide) rfl (by decide) rfl rfl).1
      rfl).trans rfl,
   (tconv2_map_internal_struct c5env 10 "" 4 2 'v' fmtMode.fmtGo [] _ _ []
      Funarg.FunargNone (some 1) (some 0) (some 3) none none rfl rfl rfl
      (by decide) (by decide) (by decide) rfl (by decide) rfl rfl).2.2.2
      (by decide) (by decide) (by decide)⟩

/-- Claim C6: `FmtConst` formats a non-machine-oriented complex value by
the signs of its real and imaginary parts exactly as the claim's case
analysis says, and any other value (or machine-oriented complex) uses the
value's default textual form; in particular real=2, imag=-3 gives
"(2-3i)" and real=2, imag=3 gives "(2+3i)". -/
theorem fmtConst_complex_formatting :
    (∀ (v : ConstValue) (sharp : Bool),
      FmtConst v sharp = fmtConstClaim v sharp) ∧
    FmtConst (ConstValue.complexVal 2 (-3)) false = "(2-3i)" ∧
    FmtConst (ConstValue.complexVal 2 3) false = "(2+3i)" ∧
    FmtConst (ConstValue.complexVal 0 3) false = "3i" ∧
    FmtConst (ConstValue.complexVal 0 0) false = "0" := by
  refine ⟨?_, by decide, by decide, by decide, by decide⟩
  intro v sharp
  cases v with
  | other s => cases sharp <;> rfl
  | complexVal re im =>
    cases sharp with
    | true => rfl
    | false =>
      by_cases h1 : re = 0 <;> by_cases h2 : im = 0 <;> by_cases h3 : im < 0 <;>
        simp [FmtConst, fmtConstClaim, ConstValue.isComplex, h1, h2, h3,
          Int.sign_eq_zero_iff_zero, intSignLt]

/-- Claim C7: `TypeHash` equals the little-endian 32-bit value of the
first 4 bytes of the MD5 digest of the bytes of the type's name-string
rendering, and repeated calls on an unchanged type agree. -/
theorem typeHash_md5_truncation (env : Env) (fuel : Nat) (t : TypeRef) :
    TypeHash env fuel t =
      Except.map (fun p => leUint32 ((md5 (strBytes p)).take 4))
        (NameString env fuel t) ∧
    TypeHash env fuel t = TypeHash env fuel t := by
  constructor
  · cases h : NameString env fuel t <;>
      simp [TypeHash, h, Except.map, Except.bind, Except.instMonad]
  · rfl

/-- Counterexample to C8 as stated: with verb 'L' the symbol renderer
panics ("linksymfmt") even on a null symbol, instead of returning the
placeholder. -/
theorem sconv_verb_L_counterexample :
    sconv emptyEnv none 'L' fmtMode.fmtGo = Except.error "linksymfmt" ∧
    sconv emptyEnv none 'L' fmtMode.fmtGo ≠ Except.ok "<S>" :=
  ⟨rfl, by decide⟩

/-- Claim C8 (amended): a null symbol renders as the placeholder token
for every verb other than 'L' (on which the symbol renderers panic) in
every mode; a null type and a null field render as their placeholder token
in every mode and verb, never an error. -/
theorem nil_placeholders (env : Env) (b : String) (verb : Char)
    (mode : fmtMode) (n : Nat) (visited : List (Nat × Nat))
    (funarg : Funarg) :
    (verb ≠ 'L' → sconv env none verb mode = Except.ok "<S>") ∧
    (verb ≠ 'L' → sconv2 env b none verb mode = Except.ok (b ++ "<S>")) ∧
    (tconv2 env (n + 1) b none verb mode visited = Except.ok (b ++ "<T>")) ∧
    (fldconv env (n + 1) b none verb mode visited funarg =
      Except.ok (b ++ "<T>")) := by
  refine ⟨?_, ?_, ?_, ?_⟩
  · intro hv
    simp [sconv, hv]
  · intro hv
    simp [sconv2, hv]
  · simp [tconv2, renderG]
  · simp [fldconv, renderG]

/-- Witness for C8 (amended): concrete placeholder renderings, including a
null type under the 'L' verb. -/
theorem nil_placeholders_witness :
    sconv emptyEnv none 'v' fmtMode.fmtGo = Except.ok "<S>" ∧
    sconv2 emptyEnv "x" none 'v' fmtMode.fmtTypeID = Except.ok ("x" ++ "<S>") ∧
    tconv2 emptyEnv 3 "y" none 'L' fmtMode.fmtDebug [] =
      Except.ok ("y" ++ "<T>") ∧
    fldconv emptyEnv 3 "z" none 'v' fmtMode.fmtGo [] Funarg.FunargNone =
      Except.ok ("z" ++ "<T>") :=
  ⟨(nil_placeholders emptyEnv "" 'v' fmtMode.fmtGo 0 [] Funarg.FunargNone).1
     (by decide),
   (nil_placeholders emptyEnv "x" 'v' fmtMode.fmtTypeID 0 []
     Funarg.FunargNone).2.1 (by decide),
   (nil_placeholders emptyEnv "y" 'L' fmtMode.fmtDebug 2 []
     Funarg.FunargNone).2.2.1,
   (nil_placeholders emptyEnv "z" 'v' fmtMode.fmtGo 2 []
     Funarg.FunargNone).2.2.2⟩

/-- Counterexample to C9 as stated: with the builtin and current packages
both present, the qualifier dereferences a null package in display mode
with a non-short verb and faults instead of returning the empty string. -/
theorem pkgqual_nil_package_counterexample :
    pkgqual c9env none 'v' fmtMode.fmtGo =
      Except.error "nil pointer dereference" ∧
    pkgqual c9env none 'v' fmtMode.fmtGo ≠ Except.ok "" :=
  ⟨rfl, by decide⟩

/-- Claim C9 (amended): a null package yields the empty qualification
whenever the short form is requested, and in display mode when the builtin
or current package global is itself absent; in every other case the
qualifier dereferences the null package and faults. -/
theorem pkgqual_nil_package (env : Env) (verb : Char) (mode : fmtMode) :
    (verb = 'S' → pkgqual env none verb mode = Except.ok "") ∧
    (verb ≠ 'S' → mode = fmtMode.fmtGo →
      (env.builtinPkg = none ∨ env.localPkg = none) →
      pkgqual env none verb mode = Except.ok "") ∧
    (verb ≠ 'S' → env.builtinPkg ≠ none → env.localPkg ≠ none →
      pkgqual env none verb mode =
        Except.error "nil pointer dereference") := by
  refine ⟨?_, ?_, ?_⟩
  · intro hS
    simp [pkgqual, hS]
  · intro hS hm hb
    subst hm
    cases hb with
    | inl h => simp [pkgqual, hS, h]
    | inr h => simp [pkgqual, hS, h]
  · intro hS hb hl
    cases hB : env.builtinPkg with
    | none => exact absurd hB hb
    | some bp =>
      cases hL : env.localPkg with
      | none => exact absurd hL hl
      | some lp =>
        cases mode <;> simp [pkgqual, hS, hB, hL, derefPkg]

/-- Witness for C9 (amended): the short form is safe on a null package;
debug mode faults on it. -/
theorem pkgqual_nil_package_witness :
    pkgqual c9env none 'S' fmtMode.fmtDebug = Except.ok "" ∧
    pkgqual c9env none 'v' fmtMode.fmtDebug =
      Except.error "nil pointer dereference" :=
  ⟨(pkgqual_nil_package c9env 'S' fmtMode.fmtDebug).1 rfl,
   (pkgqual_nil_package c9env 'v' fmtMode.fmtDebug).2.2 (by decide)
     (by decide) (by decide)⟩

/-- Claim C10: for the synthetic kinds — raw-text placeholder, two-type
tuple, and multi-type result list — `tconv2` returns before the cycle
check is re-armed, emitting the stored payload verbatim for the raw-text
kind and, for the tuple and result-list kinds, the element types' default
display-mode `String()` renderings joined by commas, in every mode and
for every visited map (neither is propagated to the elements). -/
theorem tconv2_synthetic_kinds (env : Env) (n : Nat) (b : String) (id : Nat)
    (verb : Char) (mode : fmtMode) (visited : List (Nat × Nat))
    (tn : TypeNode)
    (hvis : alookup visited id = none)
    (hlk : alookup env.types id = some tn) :
    (∀ s, tn.extra = TypeExtra.ssa s →
      tconv2 env (n + 1) b (some id) verb mode visited =
        Except.ok (b ++ s)) ∧
    (∀ f0 f1, tn.extra = TypeExtra.tuple f0 f1 →
      tconv2 env (n + 1) b (some id) verb mode visited = (do
        let s0 ← tconv env n f0 rZero fmtMode.fmtGo
        let s1 ← tconv env n f1 rZero fmtMode.fmtGo
        Except.ok (b ++ s0 ++ "," ++ s1))) ∧
    (∀ tys, tn.extra = TypeExtra.results tys →
      tconv2 env (n + 1) b (some id) verb mode visited = (do
        let parts ← tys.mapM (fun et => tconv env n et rZero fmtMode.fmtGo)
        Except.ok (b ++ String.intercalate "," parts))) := by
  refine ⟨?_, ?_, ?_⟩
  · intro s hx
    have hk : tn.kind = Kind.TSSA := by simp [TypeNode.kind, hx]
    simp [tconv2, renderG, hvis, hlk, hx, hk]
  · intro f0 f1 hx
    have hk : tn.kind = Kind.TTUPLE := by simp [TypeNode.kind, hx]
    simp [tconv2, tconv, renderG, hvis, hlk, hx, hk,
      Except.bind, Except.instMonad, Except.map]
  · intro tys hx
    have hk : tn.kind = Kind.TRESULTS := by simp [TypeNode.kind, hx]
    simp [tconv2, tconv, renderG, hvis, hlk, hx, hk,
      Except.bind, Except.instMonad, Except.map]

/-- Witness for C10: the synthetic kinds render their elements in default
display form even under debug or the ID modes and a nonempty visited
map. -/
theorem tconv2_synthetic_kinds_witness :
    tconv2 c10env 5 "" (some 5) 'v' fmtMode.fmtDebug [(9, 4)] =
      Except.ok "int,string" ∧
    tconv2 c10env 5 "" (some 6) 'S' fmtMode.fmtTypeID [] =
      Except.ok "flags" ∧
    tconv2 c10env 5 "" (some 7) 'v' fmtMode.fmtTypeIDName [] =
      Except.ok "int,string,int" :=
  ⟨((tconv2_synthetic_kinds c10env 4 "" 5 'v' fmtMode.fmtDebug [(9, 4)] _
      rfl rfl).2.1 (some 0) (some 1) rfl).trans rfl,
   ((tconv2_synthetic_kinds c10env 4 "" 6 'S' fmtMode.fmtTypeID [] _
      rfl rfl).1 "flags" rfl).trans rfl,
   ((tconv2_synthetic_kinds c10env 4 "" 7 'v' fmtMode.fmtTypeIDName [] _
      rfl rfl).2.2 [some 0, some 1, some 0] rfl).trans rfl⟩

end GoTypes
